import Mathlib

/-!
Shallow embedding of `omcache.py`, the Python binding of the OMcache
memcached client library.  The binding forwards every operation to the
native core (`libomcache.so`) and translates the C-style status code the
core returns into a Python-level result or exception via the single
funnel `OMcache._omc_check`.

The native core is out of scope: each wrapper method is embedded as a pure
function that takes the core's observable response (the returned status
code and the values it wrote through the out-pointers `_cucpp`/`_sizep`,
`_u32p`, `_u64p`) as extra arguments, and returns both the argument tuple
the wrapper forwards to the core and the Python-level outcome
(`Except PyExc _`, where `Except.error` models a raised exception).
-/

/-- Modelled from the spec: the numeric status constants come from the
native header `omcache_cdef.h`, which is not part of the Python source;
the spec requires only that the status codes are distinct kinds
("Status codes map 1:1 to client error kinds"), so they are embedded as
distinct naturals. `OMCACHE_OK`. -/
def OMCACHE_OK : Nat := 0

/-- Modelled from the spec: see `OMCACHE_OK`. -/
def OMCACHE_NOT_FOUND : Nat := 1

/-- Modelled from the spec: see `OMCACHE_OK`. -/
def OMCACHE_KEY_EXISTS : Nat := 2

/-- Modelled from the spec: see `OMCACHE_OK`. -/
def OMCACHE_BUFFERED : Nat := 9

/-- The exception classes defined by `omcache.py` (plus Python's root
`Exception`): `Error(Exception)`, `CommandError(Error)`,
`NotFoundError(CommandError)`, `KeyExistsError(CommandError)`. -/
inductive PyClass where
  | exception
  | error
  | commandError
  | notFoundError
  | keyExistsError
  deriving DecidableEq, Repr

/-- The ancestors of each exception class (the class itself first),
following the single-inheritance chains declared in `omcache.py`. -/
def PyClass.ancestors : PyClass → List PyClass
  | .exception => [.exception]
  | .error => [.error, .exception]
  | .commandError => [.commandError, .error, .exception]
  | .notFoundError => [.notFoundError, .commandError, .error, .exception]
  | .keyExistsError => [.keyExistsError, .commandError, .error, .exception]

/-- Python `issubclass`: `c` is `d` or inherits from it. -/
def PyClass.isSubclass (c d : PyClass) : Bool :=
  d ∈ c.ancestors

/-- A raised exception value: its class, its message (`None` when raised
bare, as `raise NotFoundError` does), and its `status` attribute.
`CommandError.status` defaults to `None` at class level; `NotFoundError`
and `KeyExistsError` override it with their status constants, and
`CommandError.__init__` stores an explicitly passed non-`None` status. -/
structure PyExc where
  cls : PyClass
  msg : Option String
  status : Option Nat
  deriving DecidableEq, Repr

/-- The value `NotFoundError()` raised bare by `_omc_check`:
class attribute `status = _oc.OMCACHE_NOT_FOUND`, no message. -/
def NotFoundError : PyExc :=
  { cls := .notFoundError, msg := none, status := some OMCACHE_NOT_FOUND }

/-- The value `KeyExistsError()` raised bare by `_omc_check`:
class attribute `status = _oc.OMCACHE_KEY_EXISTS`, no message. -/
def KeyExistsError : PyExc :=
  { cls := .keyExistsError, msg := none, status := some OMCACHE_KEY_EXISTS }

/-- `CommandError(msg, status=status)`: since the class-level default for
`status` is `None`, the constructor's "set only if not `None`" assignment
stores exactly the passed option. -/
def CommandError (msg : Option String) (status : Option Nat) : PyExc :=
  { cls := .commandError, msg := msg, status := status }

/-- A Python text-or-bytes argument, the domain of `_to_bytes`. -/
inductive PyStr where
  | str (s : String)
  | bytes (b : List Nat)
  deriving DecidableEq, Repr

/-- `_to_bytes`: a `str` is UTF-8 encoded, bytes pass through. -/
def to_bytes : PyStr → List Nat
  | .str s => s.toUTF8.toList.map (fun c => c.toNat)
  | .bytes b => b

/-- A Python value of arbitrary truthiness, the domain of the `buffering`
setter's `enabled` argument (and the codomain of `self._buffering`). -/
inductive PyValue where
  | none
  | bool (b : Bool)
  | int (n : Int)
  | str (s : String)
  | bytes (b : List Nat)
  deriving DecidableEq, Repr

/-- Python truthiness of a `PyValue` (`bool(v)`). -/
def PyValue.truthy : PyValue → Bool
  | .none => false
  | .bool b => b
  | .int n => decide (n ≠ 0)
  | .str s => decide (s ≠ "")
  | .bytes b => decide (b ≠ [])

/-- The value successfully returned by `_omc_check`: the status code
itself (when `return_buffer` is false and the status is OK or BUFFERED)
or the bytes of the core's response buffer (when `return_buffer` is true
and the status is OK). -/
inductive CheckOk where
  | status (s : Nat)
  | buffer (b : List Nat)
  deriving DecidableEq, Repr

/-- The shared raise tail of `_omc_check` (the code after the two early
returns): `NotFoundError` for OMCACHE_NOT_FOUND, `KeyExistsError` for
OMCACHE_KEY_EXISTS, otherwise `CommandError("{name}: {strerror}", status=ret)`.
`strerror` stands for the core's `omcache_strerror`. -/
def omc_check_raise (name : String) (ret : Nat) (strerror : Nat → String) : PyExc :=
  if ret = OMCACHE_NOT_FOUND then NotFoundError
  else if ret = OMCACHE_KEY_EXISTS then KeyExistsError
  else CommandError (some (name ++ ": " ++ strerror ret)) (some ret)

/-- `OMcache._omc_check(name, ret, return_buffer)`.  `buf` is the byte
string `_ffi.buffer(_cucpp[0], _sizep[0])[:]` the core left in the shared
response-buffer pointers.  Mirrors the Python control flow: with
`return_buffer` true only OK returns (the buffer); otherwise OK and
BUFFERED return the status; every other path falls into the raise tail —
note that BUFFERED with `return_buffer` true also raises. -/
def omc_check (name : String) (ret : Nat) (return_buffer : Bool) (buf : List Nat)
    (strerror : Nat → String) : Except PyExc CheckOk :=
  if return_buffer then
    if ret = OMCACHE_OK then .ok (.buffer buf)
    else .error (omc_check_raise name ret strerror)
  else
    if ret = OMCACHE_OK ∨ ret = OMCACHE_BUFFERED then .ok (.status ret)
    else .error (omc_check_raise name ret strerror)

/-- The Python-visible instance state of an `OMcache` object (the native
handle `self.omc` and the log callback carry no claim-relevant state and
are omitted).  `_buffering` is typed as a full Python value: that it only
ever holds a `bool` is a property proved about the code, not imposed by
the model. -/
structure OMcache where
  _buffering : PyValue
  _conn_timeout : Option Int
  _reconn_timeout : Option Int
  _dead_timeout : Option Int
  io_timeout : Int
  deriving DecidableEq, Repr

/-- The argument of `set_servers`: a single string (or bytes), or a
`list`/`set`/`tuple` of strings; a `set`'s arbitrary iteration order is
represented by the order of the list. -/
inductive ServerListArg where
  | str (s : String)
  | bytes (b : List Nat)
  | seq (xs : List String)
  deriving DecidableEq, Repr

/-- Arguments forwarded to `omcache_set_servers`. -/
structure SetServersCall where
  server_list : List Nat
  deriving DecidableEq, Repr

/-- Arguments forwarded to `omcache_noop`. -/
structure NoopCall where
  server_index : Int
  timeout : Int
  deriving DecidableEq, Repr

/-- Arguments forwarded to `omcache_stat`. -/
structure StatCall where
  command : List Nat
  server_index : Int
  timeout : Int
  deriving DecidableEq, Repr

/-- Arguments forwarded to `omcache_set`. -/
structure SetCall where
  key : List Nat
  key_len : Nat
  value : List Nat
  value_len : Nat
  expiration : Int
  flags : Int
  cas : Int
  timeout : Int
  deriving DecidableEq, Repr

/-- Arguments forwarded to `omcache_add` (and, shape-identical,
`omcache_replace`). -/
structure AddCall where
  key : List Nat
  key_len : Nat
  value : List Nat
  value_len : Nat
  expiration : Int
  flags : Int
  timeout : Int
  deriving DecidableEq, Repr

/-- Arguments forwarded to `omcache_delete`. -/
structure DeleteCall where
  key : List Nat
  key_len : Nat
  timeout : Int
  deriving DecidableEq, Repr

/-- Arguments forwarded to `omcache_get`: `flags_ptr`/`cas_ptr` record
whether `_u32p`/`_u64p` or `_ffi.NULL` was passed. -/
structure GetCall where
  key : List Nat
  key_len : Nat
  flags_ptr : Bool
  cas_ptr : Bool
  timeout : Int
  deriving DecidableEq, Repr

/-- Arguments forwarded to `omcache_increment` / `omcache_decrement`. -/
structure IncrCall where
  key : List Nat
  key_len : Nat
  delta : Int
  initial : Int
  expiration : Int
  timeout : Int
  deriving DecidableEq, Repr

/-- `set_servers`: a `list`/`set`/`tuple` is first `",".join`-ed, then
`_to_bytes` is applied and the result forwarded to the core; the core's
status goes through `_omc_check` (via the `_omc_return` decorator). -/
def OMcache.set_servers (st : OMcache) (server_list : ServerListArg)
    (coreRet : Nat) (strerror : Nat → String) :
    SetServersCall × Except PyExc CheckOk :=
  let sl : PyStr := match server_list with
    | .seq xs => .str (String.intercalate "," xs)
    | .str s => .str s
    | .bytes b => .bytes b
  ({ server_list := to_bytes sl },
   omc_check "omcache_set_servers" coreRet false [] strerror)

/-- `OMcache.__init__(server_list)`: sets `_buffering = False` and the
three timeout caches to `None`, calls `set_servers` (whose exception
propagates out of the constructor), then sets `io_timeout = 1000`.
`set_servers` reads none of these fields, so the successful result is the
record below; on failure the partially initialised object is discarded
with the exception. -/
def OMcache.init (server_list : ServerListArg) (setServersRet : Nat)
    (strerror : Nat → String) : Except PyExc OMcache :=
  let st : OMcache :=
    { _buffering := PyValue.bool false
      _conn_timeout := none
      _reconn_timeout := none
      _dead_timeout := none
      io_timeout := 1000 }
  match (OMcache.set_servers st server_list setServersRet strerror).2 with
  | .error e => .error e
  | .ok _ => .ok st

/-- The `connect_timeout` property getter. -/
def OMcache.connect_timeout (st : OMcache) : Option Int :=
  st._conn_timeout

/-- The `connect_timeout` property setter: stores `msec` into
`self._conn_timeout` BEFORE calling the core, so the cache is updated
even when `_omc_check` then raises. -/
def OMcache.set_connect_timeout (st : OMcache) (msec : Int) (coreRet : Nat)
    (strerror : Nat → String) : OMcache × Except PyExc CheckOk :=
  let st := { st with _conn_timeout := some msec }
  (st, omc_check "omcache_set_connect_timeout" coreRet false [] strerror)

/-- The `reconnect_timeout` property getter. -/
def OMcache.reconnect_timeout (st : OMcache) : Option Int :=
  st._reconn_timeout

/-- The `reconnect_timeout` property setter; stores before checking,
like `set_connect_timeout`. -/
def OMcache.set_reconnect_timeout (st : OMcache) (msec : Int) (coreRet : Nat)
    (strerror : Nat → String) : OMcache × Except PyExc CheckOk :=
  let st := { st with _reconn_timeout := some msec }
  (st, omc_check "omcache_set_reconnect_timeout" coreRet false [] strerror)

/-- The `dead_timeout` property getter. -/
def OMcache.dead_timeout (st : OMcache) : Option Int :=
  st._dead_timeout

/-- The `dead_timeout` property setter; stores before checking,
like `set_connect_timeout`. -/
def OMcache.set_dead_timeout (st : OMcache) (msec : Int) (coreRet : Nat)
    (strerror : Nat → String) : OMcache × Except PyExc CheckOk :=
  let st := { st with _dead_timeout := some msec }
  (st, omc_check "omcache_set_dead_timeout" coreRet false [] strerror)

/-- The `buffering` property getter: returns `self._buffering`. -/
def OMcache.buffering (st : OMcache) : PyValue :=
  st._buffering

/-- The `buffering` property setter:
`self._buffering = True if enabled else False`, then the core call whose
status goes through `_omc_check`. -/
def OMcache.set_buffering (st : OMcache) (enabled : PyValue) (coreRet : Nat)
    (strerror : Nat → String) : OMcache × Except PyExc CheckOk :=
  let st := { st with _buffering := PyValue.bool (if enabled.truthy then true else false) }
  (st, omc_check "omcache_set_buffering" coreRet false [] strerror)

/-- `noop(server_index=0, timeout=None)`: a `None` timeout defaults to
`self.io_timeout`, any other value (including 0) is forwarded as is. -/
def OMcache.noop (st : OMcache) (server_index : Int) (timeout : Option Int)
    (coreRet : Nat) (strerror : Nat → String) :
    NoopCall × Except PyExc CheckOk :=
  let t := match timeout with
    | some t => t
    | none => st.io_timeout
  ({ server_index := server_index, timeout := t },
   omc_check "omcache_noop" coreRet false [] strerror)

/-- `stat(command="", server_index=0, timeout=None)`. -/
def OMcache.stat (st : OMcache) (command : PyStr) (server_index : Int)
    (timeout : Option Int) (coreRet : Nat) (strerror : Nat → String) :
    StatCall × Except PyExc CheckOk :=
  let command := to_bytes command
  let t := match timeout with
    | some t => t
    | none => st.io_timeout
  ({ command := command, server_index := server_index, timeout := t },
   omc_check "omcache_stat" coreRet false [] strerror)

/-- `set(key, value, expiration=0, flags=0, cas=0, timeout=None)`. -/
def OMcache.set (st : OMcache) (key value : PyStr)
    (expiration flags cas : Int) (timeout : Option Int)
    (coreRet : Nat) (strerror : Nat → String) :
    SetCall × Except PyExc CheckOk :=
  let key := to_bytes key
  let value := to_bytes value
  let t := match timeout with
    | some t => t
    | none => st.io_timeout
  ({ key := key, key_len := key.length, value := value,
     value_len := value.length, expiration := expiration, flags := flags,
     cas := cas, timeout := t },
   omc_check "omcache_set" coreRet false [] strerror)

/-- `add(key, value, expiration=0, flags=0, timeout=None)`. -/
def OMcache.add (st : OMcache) (key value : PyStr)
    (expiration flags : Int) (timeout : Option Int)
    (coreRet : Nat) (strerror : Nat → String) :
    AddCall × Except PyExc CheckOk :=
  let key := to_bytes key
  let value := to_bytes value
  let t := match timeout with
    | some t => t
    | none => st.io_timeout
  ({ key := key, key_len := key.length, value := value,
     value_len := value.length, expiration := expiration, flags := flags,
     timeout := t },
   omc_check "omcache_add" coreRet false [] strerror)

/-- `replace(key, value, expiration=0, flags=0, timeout=None)`. -/
def OMcache.replace (st : OMcache) (key value : PyStr)
    (expiration flags : Int) (timeout : Option Int)
    (coreRet : Nat) (strerror : Nat → String) :
    AddCall × Except PyExc CheckOk :=
  let key := to_bytes key
  let value := to_bytes value
  let t := match timeout with
    | some t => t
    | none => st.io_timeout
  ({ key := key, key_len := key.length, value := value,
     value_len := value.length, expiration := expiration, flags := flags,
     timeout := t },
   omc_check "omcache_replace" coreRet false [] strerror)

/-- `delete(key, timeout=None)`. -/
def OMcache.delete (st : OMcache) (key : PyStr) (timeout : Option Int)
    (coreRet : Nat) (strerror : Nat → String) :
    DeleteCall × Except PyExc CheckOk :=
  let key := to_bytes key
  let t := match timeout with
    | some t => t
    | none => st.io_timeout
  ({ key := key, key_len := key.length, timeout := t },
   omc_check "omcache_delete" coreRet false [] strerror)

/-- The Python value returned by `get`: the bare `_omc_check` result
(`buf`, bytes on success), or a 2-tuple/3-tuple of it with the `u32`
flags and/or `u64` CAS cells the core wrote. -/
inductive GetResult where
  | plain (buf : CheckOk)
  | pair (buf : CheckOk) (n : Nat)
  | triple (buf : CheckOk) (m n : Nat)
  deriving DecidableEq, Repr

/-- `get(key, flags=False, cas=False, timeout=None)`: passes `_u32p`
(resp. `_u64p`) only when `flags` (resp. `cas`) is requested, checks the
status with `return_buffer=True`, and shapes the result by the two
booleans: value alone / `(value, flags)` / `(value, cas)` /
`(value, flags, cas)`.  `coreBuf`, `coreFlags`, `coreCas` are the cell
contents the core wrote. -/
def OMcache.get (st : OMcache) (key : PyStr) (flags cas : Bool)
    (timeout : Option Int) (coreRet : Nat) (coreBuf : List Nat)
    (coreFlags coreCas : Nat) (strerror : Nat → String) :
    GetCall × Except PyExc GetResult :=
  let key := to_bytes key
  let t := match timeout with
    | some t => t
    | none => st.io_timeout
  ({ key := key, key_len := key.length, flags_ptr := flags,
     cas_ptr := cas, timeout := t },
   (omc_check "omcache_get" coreRet true coreBuf strerror).map (fun buf =>
     if !flags && !cas then .plain buf
     else if flags && cas then .triple buf coreFlags coreCas
     else if flags then .pair buf coreFlags
     else .pair buf coreCas))

/-- `increment(key, delta=1, initial=0, expiration=0, timeout=None)`:
checks the status (without `return_buffer`), returns `None` unless the
check produced exactly `OMCACHE_OK`, else the `u64` cell the core wrote
(the new counter value). -/
def OMcache.increment (st : OMcache) (key : PyStr)
    (delta initial expiration : Int) (timeout : Option Int)
    (coreRet : Nat) (coreVal : Nat) (strerror : Nat → String) :
    IncrCall × Except PyExc (Option Nat) :=
  let key := to_bytes key
  let t := match timeout with
    | some t => t
    | none => st.io_timeout
  ({ key := key, key_len := key.length, delta := delta, initial := initial,
     expiration := expiration, timeout := t },
   (omc_check "omcache_increment" coreRet false [] strerror).bind (fun ret =>
     if ret ≠ CheckOk.status OMCACHE_OK then .ok none
     else .ok (some coreVal)))

/-- `decrement(key, delta=1, initial=0, expiration=0, timeout=None)`:
identical to `increment` but for the core entry point. -/
def OMcache.decrement (st : OMcache) (key : PyStr)
    (delta initial expiration : Int) (timeout : Option Int)
    (coreRet : Nat) (coreVal : Nat) (strerror : Nat → String) :
    IncrCall × Except PyExc (Option Nat) :=
  let key := to_bytes key
  let t := match timeout with
    | some t => t
    | none => st.io_timeout
  ({ key := key, key_len := key.length, delta := delta, initial := initial,
     expiration := expiration, timeout := t },
   (omc_check "omcache_decrement" coreRet false [] strerror).bind (fun ret =>
     if ret ≠ CheckOk.status OMCACHE_OK then .ok none
     else .ok (some coreVal)))

/-- A concrete client state used by concrete evaluations: the state of a
fresh `OMcache("s:1")` after `buffering = True`. -/
def sampleState : OMcache :=
  { _buffering := PyValue.bool true
    _conn_timeout := none
    _reconn_timeout := none
    _dead_timeout := none
    io_timeout := 1000 }

/-- C1: for every status code returned by the core, `_omc_check` (the
funnel every client operation's status passes through, with either value
of `return_buffer`) raises `NotFoundError` exactly when the status is
OMCACHE_NOT_FOUND and `KeyExistsError` exactly when it is
OMCACHE_KEY_EXISTS; the two exception classes are distinct subclasses of
`CommandError` and neither subclasses the other, so the two outcomes are
told apart from each other and from every other error by exception type
alone, without inspecting the message. -/
theorem omc_check_notfound_keyexists_by_type
    (name : String) (ret : Nat) (rb : Bool) (buf : List Nat)
    (strerror : Nat → String) :
    ((∃ e, omc_check name ret rb buf strerror = Except.error e ∧
        e.cls = PyClass.notFoundError) ↔ ret = OMCACHE_NOT_FOUND)
    ∧ ((∃ e, omc_check name ret rb buf strerror = Except.error e ∧
        e.cls = PyClass.keyExistsError) ↔ ret = OMCACHE_KEY_EXISTS)
    ∧ PyClass.notFoundError ≠ PyClass.keyExistsError
    ∧ PyClass.isSubclass PyClass.notFoundError PyClass.commandError = true
    ∧ PyClass.isSubclass PyClass.keyExistsError PyClass.commandError = true
    ∧ PyClass.isSubclass PyClass.notFoundError PyClass.keyExistsError = false
    ∧ PyClass.isSubclass PyClass.keyExistsError PyClass.notFoundError = false
    ∧ (∀ e, omc_check name ret rb buf strerror = Except.error e →
        ret ≠ OMCACHE_NOT_FOUND → ret ≠ OMCACHE_KEY_EXISTS →
        e.cls = PyClass.commandError) := by
  refine ⟨?_, ?_, by decide, by decide, by decide, by decide, by decide, ?_⟩
  · unfold omc_check omc_check_raise
    split_ifs <;>
      simp_all [NotFoundError, KeyExistsError, CommandError,
        OMCACHE_OK, OMCACHE_NOT_FOUND, OMCACHE_KEY_EXISTS, OMCACHE_BUFFERED] <;>
      omega
  · unfold omc_check omc_check_raise
    split_ifs <;>
      simp_all [NotFoundError, KeyExistsError, CommandError,
        OMCACHE_OK, OMCACHE_NOT_FOUND, OMCACHE_KEY_EXISTS, OMCACHE_BUFFERED] <;>
      omega
  · intro e he h1 h2
    unfold omc_check omc_check_raise at he
    split_ifs at he <;>
      simp_all [NotFoundError, KeyExistsError, CommandError] <;>
      (subst he; rfl)

/-- C2: no status is silently swallowed: every status other than
OMCACHE_OK and OMCACHE_BUFFERED makes `_omc_check` raise (with either
value of `return_buffer`), the raised exception's `status` attribute is
exactly the core's status code, and when the status is neither
OMCACHE_NOT_FOUND nor OMCACHE_KEY_EXISTS the exception is a plain
`CommandError` — a one-to-one mapping from core status codes to
caller-visible error kinds. -/
theorem omc_check_no_status_swallowed
    (name : String) (ret : Nat) (rb : Bool) (buf : List Nat)
    (strerror : Nat → String)
    (hok : ret ≠ OMCACHE_OK) (hbuf : ret ≠ OMCACHE_BUFFERED) :
    ∃ e, omc_check name ret rb buf strerror = Except.error e ∧
      e.status = some ret ∧
      (ret ≠ OMCACHE_NOT_FOUND → ret ≠ OMCACHE_KEY_EXISTS →
        e.cls = PyClass.commandError) := by
  unfold omc_check omc_check_raise
  split_ifs <;>
    simp_all [NotFoundError, KeyExistsError, CommandError]

/-- Witness for C2 at the concrete status 6 (an infrastructure error
code, neither OK, BUFFERED, NOT_FOUND nor KEY_EXISTS). -/
theorem omc_check_no_status_swallowed_witness :
    ∃ e, omc_check "omcache_set" 6 false [] (fun _ => "fail")
        = Except.error e ∧
      e.status = some 6 ∧
      (6 ≠ OMCACHE_NOT_FOUND → 6 ≠ OMCACHE_KEY_EXISTS →
        e.cls = PyClass.commandError) :=
  omc_check_no_status_swallowed "omcache_set" 6 false [] (fun _ => "fail")
    (by decide) (by decide)

/-- C3 counterexample: with buffering enabled (`sampleState`), when the
core reports OMCACHE_BUFFERED to `get`, the wrapper does NOT return a
buffered indicator — `_omc_check` is called with `return_buffer=True`,
whose early returns accept only OMCACHE_OK, so `get` raises a
`CommandError` carrying the buffered status. -/
theorem get_buffered_raises :
    (OMcache.get sampleState (.bytes [107]) false false none OMCACHE_BUFFERED
        [] 0 0 (fun _ => "buffered")).2
      = Except.error (CommandError (some "omcache_get: buffered")
          (some OMCACHE_BUFFERED)) := by
  rfl

/-- C3 amended: when the core reports OMCACHE_BUFFERED, the
status-returning data operations (`set`, `add`, `replace`, `delete`,
`noop`, `stat`) return immediately with the buffered status as indicator
and raise nothing; `increment` and `decrement` return `None` rather than
a counter value and raise nothing; `get` alone raises a `CommandError`
carrying status OMCACHE_BUFFERED. -/
theorem buffered_outcomes_by_operation
    (st : OMcache) (key value command : PyStr)
    (server_index expiration flags cas delta initial : Int)
    (timeout : Option Int) (coreBuf : List Nat)
    (coreFlags coreCas coreVal : Nat) (gflags gcas : Bool)
    (strerror : Nat → String) :
    (OMcache.set st key value expiration flags cas timeout
        OMCACHE_BUFFERED strerror).2 = Except.ok (CheckOk.status OMCACHE_BUFFERED)
  ∧ (OMcache.add st key value expiration flags timeout
        OMCACHE_BUFFERED strerror).2 = Except.ok (CheckOk.status OMCACHE_BUFFERED)
  ∧ (OMcache.replace st key value expiration flags timeout
        OMCACHE_BUFFERED strerror).2 = Except.ok (CheckOk.status OMCACHE_BUFFERED)
  ∧ (OMcache.delete st key timeout OMCACHE_BUFFERED strerror).2
      = Except.ok (CheckOk.status OMCACHE_BUFFERED)
  ∧ (OMcache.noop st server_index timeout OMCACHE_BUFFERED strerror).2
      = Except.ok (CheckOk.status OMCACHE_BUFFERED)
  ∧ (OMcache.stat st command server_index timeout OMCACHE_BUFFERED strerror).2
      = Except.ok (CheckOk.status OMCACHE_BUFFERED)
  ∧ (OMcache.increment st key delta initial expiration timeout
        OMCACHE_BUFFERED coreVal strerror).2 = Except.ok none
  ∧ (OMcache.decrement st key delta initial expiration timeout
        OMCACHE_BUFFERED coreVal strerror).2 = Except.ok none
  ∧ (OMcache.get st key gflags gcas timeout OMCACHE_BUFFERED coreBuf
        coreFlags coreCas strerror).2
      = Except.error (CommandError
          (some ("omcache_get: " ++ strerror OMCACHE_BUFFERED))
          (some OMCACHE_BUFFERED)) :=
  ⟨rfl, rfl, rfl, rfl, rfl, rfl, rfl, rfl, rfl⟩

/-- C4: `increment` and `decrement` return the new 64-bit counter value
(the `u64` cell the core wrote) when the core reports OMCACHE_OK, and
raise `NotFoundError` when the core reports OMCACHE_NOT_FOUND. -/
theorem increment_decrement_ok_notfound
    (st : OMcache) (key : PyStr) (delta initial expiration : Int)
    (timeout : Option Int) (coreVal : Nat) (strerror : Nat → String)
    (h64 : coreVal < 2 ^ 64) :
    (OMcache.increment st key delta initial expiration timeout
        OMCACHE_OK coreVal strerror).2 = Except.ok (some coreVal)
  ∧ (OMcache.increment st key delta initial expiration timeout
        OMCACHE_NOT_FOUND coreVal strerror).2 = Except.error NotFoundError
  ∧ (OMcache.decrement st key delta initial expiration timeout
        OMCACHE_OK coreVal strerror).2 = Except.ok (some coreVal)
  ∧ (OMcache.decrement st key delta initial expiration timeout
        OMCACHE_NOT_FOUND coreVal strerror).2 = Except.error NotFoundError
  ∧ coreVal < 2 ^ 64 :=
  ⟨rfl, rfl, rfl, rfl, h64⟩

/-- Witness for C4 at a concrete counter value. -/
theorem increment_decrement_ok_notfound_witness :
    (OMcache.increment sampleState (.bytes [99]) 1 0 0 none
        OMCACHE_OK 7 (fun _ => "")).2 = Except.ok (some 7)
  ∧ (OMcache.increment sampleState (.bytes [99]) 1 0 0 none
        OMCACHE_NOT_FOUND 7 (fun _ => "")).2 = Except.error NotFoundError
  ∧ (OMcache.decrement sampleState (.bytes [99]) 1 0 0 none
        OMCACHE_OK 7 (fun _ => "")).2 = Except.ok (some 7)
  ∧ (OMcache.decrement sampleState (.bytes [99]) 1 0 0 none
        OMCACHE_NOT_FOUND 7 (fun _ => "")).2 = Except.error NotFoundError
  ∧ 7 < 2 ^ 64 :=
  increment_decrement_ok_notfound sampleState (.bytes [99]) 1 0 0 none 7
    (fun _ => "") (by norm_num)

/-- C5: every data operation resolves its optional per-call timeout the
same way: `None` (the default) forwards the client's `io_timeout`, and
any explicit value `t` — 0 included, since the code tests `is not None`,
not truthiness — is forwarded exactly. -/
theorem per_call_timeout_resolution
    (st : OMcache) (key value command : PyStr)
    (server_index expiration flags cas delta initial : Int) (t : Int)
    (coreRet coreFlags coreCas coreVal : Nat) (coreBuf : List Nat)
    (gflags gcas : Bool) (strerror : Nat → String) :
    ((OMcache.get st key gflags gcas none coreRet coreBuf coreFlags coreCas
        strerror).1.timeout = st.io_timeout
      ∧ (OMcache.get st key gflags gcas (some t) coreRet coreBuf coreFlags
          coreCas strerror).1.timeout = t)
  ∧ ((OMcache.set st key value expiration flags cas none coreRet
        strerror).1.timeout = st.io_timeout
      ∧ (OMcache.set st key value expiration flags cas (some t) coreRet
          strerror).1.timeout = t)
  ∧ ((OMcache.add st key value expiration flags none coreRet
        strerror).1.timeout = st.io_timeout
      ∧ (OMcache.add st key value expiration flags (some t) coreRet
          strerror).1.timeout = t)
  ∧ ((OMcache.replace st key value expiration flags none coreRet
        strerror).1.timeout = st.io_timeout
      ∧ (OMcache.replace st key value expiration flags (some t) coreRet
          strerror).1.timeout = t)
  ∧ ((OMcache.delete st key none coreRet strerror).1.timeout = st.io_timeout
      ∧ (OMcache.delete st key (some t) coreRet strerror).1.timeout = t)
  ∧ ((OMcache.increment st key delta initial expiration none coreRet coreVal
        strerror).1.timeout = st.io_timeout
      ∧ (OMcache.increment st key delta initial expiration (some t) coreRet
          coreVal strerror).1.timeout = t)
  ∧ ((OMcache.decrement st key delta initial expiration none coreRet coreVal
        strerror).1.timeout = st.io_timeout
      ∧ (OMcache.decrement st key delta initial expiration (some t) coreRet
          coreVal strerror).1.timeout = t)
  ∧ ((OMcache.noop st server_index none coreRet strerror).1.timeout
        = st.io_timeout
      ∧ (OMcache.noop st server_index (some t) coreRet strerror).1.timeout = t)
  ∧ ((OMcache.stat st command server_index none coreRet strerror).1.timeout
        = st.io_timeout
      ∧ (OMcache.stat st command server_index (some t) coreRet
          strerror).1.timeout = t) :=
  ⟨⟨rfl, rfl⟩, ⟨rfl, rfl⟩, ⟨rfl, rfl⟩, ⟨rfl, rfl⟩, ⟨rfl, rfl⟩,
   ⟨rfl, rfl⟩, ⟨rfl, rfl⟩, ⟨rfl, rfl⟩, ⟨rfl, rfl⟩⟩

/-- C6: on a successful core response (OMCACHE_OK), `get` shapes its
result by the two per-call booleans: the value alone; `(value, flags)`;
`(value, cas)`; or `(value, flags, cas)` — and requests the corresponding
out-pointer from the core only when asked. -/
theorem get_result_shapes
    (st : OMcache) (key : PyStr) (timeout : Option Int) (coreBuf : List Nat)
    (coreFlags coreCas : Nat) (strerror : Nat → String) :
    (OMcache.get st key false false timeout OMCACHE_OK coreBuf coreFlags
        coreCas strerror).2
      = Except.ok (GetResult.plain (CheckOk.buffer coreBuf))
  ∧ (OMcache.get st key true false timeout OMCACHE_OK coreBuf coreFlags
        coreCas strerror).2
      = Except.ok (GetResult.pair (CheckOk.buffer coreBuf) coreFlags)
  ∧ (OMcache.get st key false true timeout OMCACHE_OK coreBuf coreFlags
        coreCas strerror).2
      = Except.ok (GetResult.pair (CheckOk.buffer coreBuf) coreCas)
  ∧ (OMcache.get st key true true timeout OMCACHE_OK coreBuf coreFlags
        coreCas strerror).2
      = Except.ok (GetResult.triple (CheckOk.buffer coreBuf) coreFlags coreCas)
  ∧ (∀ f c : Bool, (OMcache.get st key f c timeout OMCACHE_OK coreBuf
        coreFlags coreCas strerror).1.flags_ptr = f
      ∧ (OMcache.get st key f c timeout OMCACHE_OK coreBuf coreFlags
          coreCas strerror).1.cas_ptr = c) :=
  ⟨rfl, rfl, rfl, rfl, fun _ _ => ⟨rfl, rfl⟩⟩

/-- C7: `set_servers` accepts a single string or a sequence of
`host:port` entries; a sequence is `",".join`-ed first, so a sequence and
its comma-joined string form make the byte-identical core call and
produce the identical outcome. -/
theorem set_servers_seq_eq_joined_string
    (st : OMcache) (xs : List String) (coreRet : Nat)
    (strerror : Nat → String) :
    OMcache.set_servers st (.seq xs) coreRet strerror
      = OMcache.set_servers st (.str (String.intercalate "," xs)) coreRet
          strerror
  ∧ (OMcache.set_servers st (.seq xs) coreRet strerror).1.server_list
      = to_bytes (.str (String.intercalate "," xs)) :=
  ⟨rfl, rfl⟩

/-- The state of a freshly and successfully constructed client
(`_buffering = False`, timeout caches `None`, `io_timeout = 1000`). -/
def freshState : OMcache :=
  { _buffering := PyValue.bool false
    _conn_timeout := none
    _reconn_timeout := none
    _dead_timeout := none
    io_timeout := 1000 }

/-- C8: `self._buffering` only ever holds the Python boolean `True` or
`False` — `False` right after a successful construction, and
`True if enabled else False` (the truthiness of the assigned value) after
every setter call, whatever the status check then does — and the
`buffering` getter returns exactly that boolean. -/
theorem buffering_always_bool
    (st st0 : OMcache) (enabled : PyValue) (coreRet setServersRet : Nat)
    (sl : ServerListArg) (strerror : Nat → String)
    (hinit : OMcache.init sl setServersRet strerror = Except.ok st0) :
    st0._buffering = PyValue.bool false
  ∧ OMcache.buffering st0 = PyValue.bool false
  ∧ (OMcache.set_buffering st enabled coreRet strerror).1._buffering
      = PyValue.bool enabled.truthy
  ∧ OMcache.buffering (OMcache.set_buffering st enabled coreRet strerror).1
      = PyValue.bool enabled.truthy := by
  have hst0 : st0 = freshState := by
    unfold OMcache.init at hinit
    dsimp only at hinit
    split at hinit
    · exact Except.noConfusion hinit
    · injection hinit with h
      exact h.symm
  subst hst0
  refine ⟨rfl, rfl, ?_, ?_⟩ <;>
    (cases h : enabled.truthy <;> simp [OMcache.set_buffering, OMcache.buffering, h])

/-- Witness for C8: a concrete successful construction followed by
assigning the (truthy, non-boolean) value `5` to `buffering`. -/
theorem buffering_always_bool_witness :
    freshState._buffering = PyValue.bool false
  ∧ OMcache.buffering freshState = PyValue.bool false
  ∧ (OMcache.set_buffering freshState (PyValue.int 5) OMCACHE_OK
        (fun _ => "")).1._buffering = PyValue.bool (PyValue.int 5).truthy
  ∧ OMcache.buffering (OMcache.set_buffering freshState (PyValue.int 5)
        OMCACHE_OK (fun _ => "")).1 = PyValue.bool (PyValue.int 5).truthy :=
  buffering_always_bool freshState freshState (PyValue.int 5) OMCACHE_OK
    OMCACHE_OK (.str "s:1") (fun _ => "") (by rfl)

/-- C9: each timeout setter stores the requested value into its cached
field before the core's status is checked, so for every core status —
the raising ones included — the corresponding getter afterwards returns
the last requested value. -/
theorem timeout_setters_store_before_check
    (st : OMcache) (msec : Int) (coreRet : Nat) (strerror : Nat → String) :
    (OMcache.set_connect_timeout st msec coreRet strerror).1._conn_timeout
        = some msec
  ∧ OMcache.connect_timeout
        (OMcache.set_connect_timeout st msec coreRet strerror).1 = some msec
  ∧ (OMcache.set_reconnect_timeout st msec coreRet strerror).1._reconn_timeout
        = some msec
  ∧ OMcache.reconnect_timeout
        (OMcache.set_reconnect_timeout st msec coreRet strerror).1 = some msec
  ∧ (OMcache.set_dead_timeout st msec coreRet strerror).1._dead_timeout
        = some msec
  ∧ OMcache.dead_timeout
        (OMcache.set_dead_timeout st msec coreRet strerror).1 = some msec :=
  ⟨rfl, rfl, rfl, rfl, rfl, rfl⟩

/-- C10: a successfully constructed client has `io_timeout = 1000`
milliseconds, and on it every data operation called with the default
`timeout=None` forwards exactly 1000 ms to the core. -/
theorem fresh_client_forwards_1000ms
    (sl : ServerListArg) (setServersRet : Nat) (strerror : Nat → String)
    (st0 : OMcache)
    (hinit : OMcache.init sl setServersRet strerror = Except.ok st0)
    (key value command : PyStr)
    (server_index expiration flags cas delta initial : Int)
    (coreRet coreFlags coreCas coreVal : Nat) (coreBuf : List Nat)
    (gflags gcas : Bool) :
    st0.io_timeout = 1000
  ∧ (OMcache.get st0 key gflags gcas none coreRet coreBuf coreFlags coreCas
        strerror).1.timeout = 1000
  ∧ (OMcache.set st0 key value expiration flags cas none coreRet
        strerror).1.timeout = 1000
  ∧ (OMcache.add st0 key value expiration flags none coreRet
        strerror).1.timeout = 1000
  ∧ (OMcache.replace st0 key value expiration flags none coreRet
        strerror).1.timeout = 1000
  ∧ (OMcache.delete st0 key none coreRet strerror).1.timeout = 1000
  ∧ (OMcache.increment st0 key delta initial expiration none coreRet coreVal
        strerror).1.timeout = 1000
  ∧ (OMcache.decrement st0 key delta initial expiration none coreRet coreVal
        strerror).1.timeout = 1000
  ∧ (OMcache.noop st0 server_index none coreRet strerror).1.timeout = 1000
  ∧ (OMcache.stat st0 command server_index none coreRet strerror).1.timeout
        = 1000 := by
  have hst0 : st0 = freshState := by
    unfold OMcache.init at hinit
    dsimp only at hinit
    split at hinit
    · exact Except.noConfusion hinit
    · injection hinit with h
      exact h.symm
  subst hst0
  exact ⟨rfl, rfl, rfl, rfl, rfl, rfl, rfl, rfl, rfl, rfl⟩

/-- Witness for C10: a concrete successful construction, with each data
operation invoked with the default timeout on concrete arguments. -/
theorem fresh_client_forwards_1000ms_witness :
    freshState.io_timeout = 1000
  ∧ (OMcache.get freshState (.bytes [107]) false false none OMCACHE_OK []
        0 0 (fun _ => "")).1.timeout = 1000
  ∧ (OMcache.set freshState (.bytes [107]) (.bytes [118]) 0 0 0 none
        OMCACHE_OK (fun _ => "")).1.timeout = 1000
  ∧ (OMcache.add freshState (.bytes [107]) (.bytes [118]) 0 0 none
        OMCACHE_OK (fun _ => "")).1.timeout = 1000
  ∧ (OMcache.replace freshState (.bytes [107]) (.bytes [118]) 0 0 none
        OMCACHE_OK (fun _ => "")).1.timeout = 1000
  ∧ (OMcache.delete freshState (.bytes [107]) none OMCACHE_OK
        (fun _ => "")).1.timeout = 1000
  ∧ (OMcache.increment freshState (.bytes [107]) 1 0 0 none OMCACHE_OK 0
        (fun _ => "")).1.timeout = 1000
  ∧ (OMcache.decrement freshState (.bytes [107]) 1 0 0 none OMCACHE_OK 0
        (fun _ => "")).1.timeout = 1000
  ∧ (OMcache.noop freshState 0 none OMCACHE_OK (fun _ => "")).1.timeout = 1000
  ∧ (OMcache.stat freshState (.bytes []) 0 none OMCACHE_OK
        (fun _ => "")).1.timeout = 1000 :=
  fresh_client_forwards_1000ms (.str "s:1") OMCACHE_OK (fun _ => "")
    freshState (by rfl) (.bytes [107]) (.bytes [118]) (.bytes []) 0 0 0 0 1 0
    OMCACHE_OK 0 0 0 [] false false
